import Mathlib

/-!
# Starlink dashboard: verification of the numerical core

Shallow embedding of the computational parts of the `starlink-dashboard`
repository (files `docs/app.js`, `docs/app-enhanced.js` and the two unnamed
tactical/terminal variants).  JavaScript numbers are modelled as real
numbers; `Math.sin`, `Math.log10`, `Math.pow` and `Math.PI` become
`Real.sin`, `Real.logb 10`, `Real.rpow` and `Real.pi`.  Calls into the
third-party `satellite.js` library are modelled by an abstract record of
total functions (`SatLib`), and the mutable globals (`config`, `obs`,
`weatherData`, `tleList`/`satRecs`, the handover state) become explicit
parameters and explicit state passing.
-/

open Real

namespace Starlink

/-- Observer record `obs = { lat, lon, elevMin }` shared by all variants. -/
structure Observer where
  lat : ℝ
  lon : ℝ
  elevMin : ℝ

/-- The default observer `{ lat: -27.588, lon: -48.613, elevMin: 25 }`. -/
def defaultObs : Observer := { lat := -27.588, lon := -48.613, elevMin := 25 }

/-- Result record of the basic `getSatState` (docs/app.js lines 38-78):
`{ lat, lon, alt, az, el }`. -/
structure SatState where
  lat : ℝ
  lon : ℝ
  alt : ℝ
  az : ℝ
  el : ℝ

/-- A JavaScript number together with its `isFinite` status.  `val` is the
ideal real value of the number when it is finite. -/
structure JsNum where
  isFinite : Bool
  val : ℝ

/-- Geodetic record returned by `satellite.eciToGeodetic`:
`{ latitude, longitude, height }` (radians / radians / km). -/
structure Geodetic where
  latitude : JsNum
  longitude : JsNum
  height : JsNum

/-- Look-angles record returned by `satellite.ecfToLookAngles`. -/
structure LookAngles where
  azimuth : ℝ
  elevation : ℝ
  rangeSat : ℝ

/-- Observer position in radians, built as `obsGd` inside `getSatState`. -/
structure ObserverGd where
  latitude : ℝ
  longitude : ℝ
  height : ℝ

/-- Abstract model of the `satellite.js` library functions used by
`getSatState`.  `propagate` returns `none` when the propagation produced
no usable position (`!pv || !pv.position || pv.position === false`); all
other functions are total, mirroring the pure numerical routines of the
library. -/
structure SatLib (Rec Time Eci Ecf : Type) where
  gstime : Time → ℝ
  propagate : Rec → Time → Option Eci
  eciToGeodetic : Eci → ℝ → Geodetic
  eciToEcf : Eci → ℝ → Ecf
  ecfToLookAngles : ObserverGd → Ecf → LookAngles

/-- `satellite.radiansToDegrees` applied to a JavaScript number: the value
is multiplied by `180/π` and finiteness is preserved. -/
noncomputable def radiansToDegreesJs (x : JsNum) : JsNum :=
  { isFinite := x.isFinite, val := x.val * (180 / π) }

/-- `satellite.degreesToRadians`. -/
noncomputable def degreesToRadians (d : ℝ) : ℝ := d * (π / 180)

/-- `satellite.radiansToDegrees` on a plain number. -/
noncomputable def radiansToDegrees (r : ℝ) : ℝ := r * (180 / π)

namespace Basic

/-- `getSatState(rec, time)` from docs/app.js lines 38-78.  The function
propagates the record, converts to geodetic coordinates, validates that
latitude, longitude and altitude are finite, and computes observer-relative
look angles; it returns `null` (here `none`) when propagation yields no
position or when one of the coordinates is not finite. -/
noncomputable def getSatState {Rec Time Eci Ecf : Type}
    (lib : SatLib Rec Time Eci Ecf) (obs : Observer) (rec : Rec) (time : Time) :
    Option SatState :=
  let gmst := lib.gstime time
  match lib.propagate rec time with
  | none => none
  | some eci =>
    let gd := lib.eciToGeodetic eci gmst
    let lat := radiansToDegreesJs gd.latitude
    let lon := radiansToDegreesJs gd.longitude
    let alt := gd.height
    if lat.isFinite && lon.isFinite && alt.isFinite then
      let obsGd : ObserverGd :=
        { latitude := degreesToRadians obs.lat
          longitude := degreesToRadians obs.lon
          height := 0 }
      let satEcf := lib.eciToEcf eci gmst
      let look := lib.ecfToLookAngles obsGd satEcf
      some { lat := lat.val, lon := lon.val, alt := alt.val
             az := radiansToDegrees look.azimuth
             el := radiansToDegrees look.elevation }
    else none

/-- Marker colour of the basic `drawFrame` (docs/app.js lines 196-198):
`const isVisible = st.el >= obs.elevMin; const color = isVisible ? "#00ff44" : "#4488ff"`. -/
noncomputable def markerColor (obs : Observer) (el : ℝ) : String :=
  if el ≥ obs.elevMin then "#00ff44" else "#4488ff"

end Basic

namespace Terminal

/-- The `config` global of the terminal variant (docs/app.js lines 361-366). -/
structure Config where
  considerRain : Bool
  showFootprints : Bool
  maxFootprints : ℕ
  terminalMode : Bool

/-- Default terminal configuration. -/
def defaultConfig : Config :=
  { considerRain := true, showFootprints := true, maxFootprints := 5, terminalMode := true }

/-- Result record of the terminal `calculateLinkBudget`
(docs/app.js lines 653-671). -/
structure LinkBudget where
  SNR : ℝ
  rxPower : ℝ
  FSPL : ℝ
  rainAttenuation : ℝ

/-- `calculateLinkBudget(elevationDeg, rainAttenuation)` of the terminal
variant (docs/app.js lines 653-671).  The mutable global `config` is an
explicit parameter. -/
noncomputable def calculateLinkBudget (config : Config)
    (elevationDeg : ℝ) (rainAttenuation : ℝ) : LinkBudget :=
  let FREQ : ℝ := 11.5e9
  let EIRP : ℝ := 35
  let GAIN : ℝ := 33
  let distance := 550 / Real.sin (max elevationDeg 1 * π / 180)
  let FSPL := 20 * Real.logb 10 (distance * 1000) + 20 * Real.logb 10 FREQ + 92.45
  let atmosphericLoss := 0.5 / Real.sin (max elevationDeg 5 * π / 180)
  let appliedRainAtt := if config.considerRain then rainAttenuation else 0
  let rxPower := EIRP - FSPL - atmosphericLoss - appliedRainAtt + GAIN
  let noiseFloor : ℝ := -134
  let SNR := rxPower - noiseFloor
  { SNR := SNR, rxPower := rxPower, FSPL := FSPL, rainAttenuation := appliedRainAtt }

/-- `calculateRainAttenuation(elevation, precipitation)` of the terminal
variant (docs/app.js lines 705-716); the tactical variant has the same
function body. -/
noncomputable def calculateRainAttenuation (config : Config)
    (elevation : ℝ) (precipitation : ℝ) : ℝ :=
  if precipitation = 0 ∨ config.considerRain = false then 0
  else
    let freq : ℝ := 11.5
    let k := 0.0101 * freq ^ (2.03 : ℝ)
    let alpha : ℝ := 1.065
    let slantPath := 550 / Real.sin (max elevation 5 * π / 180)
    let attenuation := k * precipitation ^ alpha * min (slantPath / 10) 5
    min attenuation 20

/-- Marker colour of the terminal `drawFrame` (docs/app.js lines 870-896):
white for the serving satellite, yellow for a handover candidate, bright
green when visible (`st.el >= obs.elevMin`) and dark green otherwise. -/
noncomputable def markerColor (obs : Observer)
    (isServing : Bool) (isCandidate : Bool) (el : ℝ) : String :=
  if isServing then "#ffffff"
  else if isCandidate then "#ffff00"
  else if el ≥ obs.elevMin then "#00ff00"
  else "#004400"

/-- An entry of the `visible` array built by `simulateHandover`
(docs/app.js lines 755-760): `{ satellite, state, snr, index }`.  The
`satellite` field (the TLE object `tleList[i]`) is identified by `index`. -/
structure Cand where
  index : ℕ
  state : SatState
  snr : ℝ

/-- The mutable handover globals `currentServingSat` and
`handoverCandidates` (docs/app.js lines 370-371). -/
structure HandoverState where
  currentServingSat : Option Cand
  handoverCandidates : List Cand

/-- Initial handover state: `currentServingSat = null`,
`handoverCandidates = []`. -/
def initialHandoverState : HandoverState :=
  { currentServingSat := none, handoverCandidates := [] }

/-- The comparator `(a, b) => b.snr - a.snr` used to sort the `visible`
array: `a` is ordered before `b` exactly when `b.snr ≤ a.snr`
(descending SNR). -/
noncomputable def handoverLe (a b : Cand) : Bool := decide (b.snr ≤ a.snr)

/-- The `visible` list built by the acquisition branch of `simulateHandover`
(docs/app.js lines 742-761): index `i` ranges over `tleList`; entries with a
null SGP4 record or a null `getSatState` result (here `view i = none`) are
skipped, as are satellites below `obs.elevMin`; the SNR is the link budget
at the elevation of the satellite with the current rain attenuation
(`config.considerRain && weatherData ? calculateRainAttenuation(...) : 0`).
`view i` models `getSatState(satRecs[i])` at the moment of the call and
`weather` models `weatherData && weatherData.precipitation`. -/
noncomputable def visEntry (config : Config) (obs : Observer)
    (weather : Option ℝ) (view : ℕ → Option SatState) (i : ℕ) : Option Cand :=
  match view i with
  | none => none
  | some st =>
    if st.el < obs.elevMin then none
    else
      let rainAtt :=
        if config.considerRain then
          match weather with
          | some precipitation => calculateRainAttenuation config st.el precipitation
          | none => 0
        else 0
      some { index := i, state := st, snr := (calculateLinkBudget config st.el rainAtt).SNR }

/-- The `visible` list itself: one loop iteration per TLE index. -/
noncomputable def visibleCands (config : Config) (obs : Observer)
    (weather : Option ℝ) (n : ℕ) (view : ℕ → Option SatState) : List Cand :=
  (List.range n).filterMap (visEntry config obs weather view)

/-- The handover branch of `simulateHandover` (docs/app.js lines 777-787):
promote the first stored candidate to serving, or drop the connection when
no candidate remains. -/
def promote (s : HandoverState) : HandoverState :=
  match s.handoverCandidates with
  | newServing :: rest =>
    { currentServingSat := some newServing, handoverCandidates := rest }
  | [] =>
    { currentServingSat := none, handoverCandidates := s.handoverCandidates }

/-- One call of `simulateHandover()` (docs/app.js lines 740-793).  With no
serving satellite the best-SNR visible satellite is acquired and the next
three become candidates; with a serving satellite a handover is executed
exactly when its current state is unavailable or its elevation has dropped
below `obs.elevMin - 5`. -/
noncomputable def simulateHandover (config : Config) (obs : Observer)
    (weather : Option ℝ) (n : ℕ) (view : ℕ → Option SatState)
    (s : HandoverState) : HandoverState :=
  match s.currentServingSat with
  | none =>
    match (visibleCands config obs weather n view).mergeSort handoverLe with
    | [] => s
    | best :: rest =>
      { currentServingSat := some best, handoverCandidates := rest.take 3 }
  | some serving =>
    match view serving.index with
    | none => promote s
    | some currentState =>
      if currentState.el < obs.elevMin - 5 then promote s else s

end Terminal

namespace Tactical

/-- The `config` global of the tactical variant (part_000 lines 137-142,
part_001 lines 15-20). -/
structure Config where
  considerRain : Bool
  showFootprints : Bool
  footprintOnlySelected : Bool
  maxFootprints : ℕ

/-- Result record of the tactical `calculateLinkBudget` (part_001 lines
326-374): the terminal fields plus the adaptive modulation choice. -/
structure LinkBudget where
  SNR : ℝ
  rxPower : ℝ
  FSPL : ℝ
  rainAttenuation : ℝ
  modulation : String
  dataRate : ℝ
  margin : ℝ

/-- `calculateLinkBudget(elevationDeg, rainAttenuation)` of the tactical
variant (part_000 lines 451-499, part_001 lines 326-374): the same link
budget as the terminal variant followed by the adaptive modulation
if-chain on the SNR. -/
noncomputable def calculateLinkBudget (config : Config)
    (elevationDeg : ℝ) (rainAttenuation : ℝ) : LinkBudget :=
  let FREQ : ℝ := 11.5e9
  let EIRP : ℝ := 35
  let GAIN : ℝ := 33
  let distance := 550 / Real.sin (max elevationDeg 1 * π / 180)
  let FSPL := 20 * Real.logb 10 (distance * 1000) + 20 * Real.logb 10 FREQ + 92.45
  let atmosphericLoss := 0.5 / Real.sin (max elevationDeg 5 * π / 180)
  let appliedRainAtt := if config.considerRain then rainAttenuation else 0
  let rxPower := EIRP - FSPL - atmosphericLoss - appliedRainAtt + GAIN
  let noiseFloor : ℝ := -134
  let SNR := rxPower - noiseFloor
  let modulation :=
    if SNR > 25 then "256-APSK"
    else if SNR > 20 then "128-APSK"
    else if SNR > 18 then "64-APSK"
    else if SNR > 15 then "32-APSK"
    else if SNR > 12 then "16-APSK"
    else if SNR > 8 then "8PSK"
    else "QPSK"
  let dataRate : ℝ :=
    if SNR > 25 then 400
    else if SNR > 20 then 350
    else if SNR > 18 then 300
    else if SNR > 15 then 250
    else if SNR > 12 then 200
    else if SNR > 8 then 150
    else 50
  { SNR := SNR, rxPower := rxPower, FSPL := FSPL, rainAttenuation := appliedRainAtt
    modulation := modulation, dataRate := dataRate, margin := SNR - 5 }

/-- Default tactical configuration (part_001 lines 15-20). -/
def defaultConfig : Config :=
  { considerRain := true, showFootprints := true
    footprintOnlySelected := false, maxFootprints := 5 }

/-- `calculateRainAttenuation(elevation, precipitation)` of the tactical
variant (part_001 lines 407-418); identical body to the terminal one. -/
noncomputable def calculateRainAttenuation (config : Config)
    (elevation : ℝ) (precipitation : ℝ) : ℝ :=
  if precipitation = 0 ∨ config.considerRain = false then 0
  else
    let freq : ℝ := 11.5
    let k := 0.0101 * freq ^ (2.03 : ℝ)
    let alpha : ℝ := 1.065
    let slantPath := 550 / Real.sin (max elevation 5 * π / 180)
    let attenuation := k * precipitation ^ alpha * min (slantPath / 10) 5
    min attenuation 20

end Tactical

namespace Enhanced

/-- RF constants of the enhanced ("pro") variant
(docs/app-enhanced.js lines 21-28). -/
def SPEED_OF_LIGHT : ℝ := 299792458

/-- `FREQ_DOWNLINK = 11.5e9` Hz. -/
def FREQ_DOWNLINK : ℝ := 11.5e9

/-- `BANDWIDTH = 250e6` Hz. -/
def BANDWIDTH : ℝ := 250e6

/-- `SATELLITE_EIRP = 35` dBW. -/
def SATELLITE_EIRP : ℝ := 35

/-- `TERMINAL_GAIN = 33` dBi. -/
def TERMINAL_GAIN : ℝ := 33

/-- `NOISE_TEMP = 290` K. -/
def NOISE_TEMP : ℝ := 290

/-- `BOLTZMANN = 1.38e-23` J/K. -/
def BOLTZMANN : ℝ := 1.38e-23

/-- Result record of the enhanced `calculateLinkBudget`
(docs/app-enhanced.js lines 126-146). -/
structure LinkBudget where
  distance : ℝ
  FSPL : ℝ
  atmosphericLoss : ℝ
  rainLoss : ℝ
  rxPower : ℝ
  noiseFloor : ℝ
  SNR : ℝ
  marginDb : ℝ

/-- `calculateLinkBudget(elevationDeg, frequency = FREQ_DOWNLINK)` of the
enhanced variant (docs/app-enhanced.js lines 126-146). -/
noncomputable def calculateLinkBudget (elevationDeg : ℝ)
    (frequency : ℝ) : LinkBudget :=
  let distance := 550 / Real.sin (elevationDeg * π / 180)
  let FSPL := 20 * Real.logb 10 (distance * 1000) + 20 * Real.logb 10 frequency +
    20 * Real.logb 10 (4 * π / SPEED_OF_LIGHT)
  let atmosphericLoss := 0.5 / Real.sin (max elevationDeg 5 * π / 180)
  let rainLoss : ℝ := if elevationDeg < 10 then 3 else if elevationDeg < 20 then 1.5 else 0.5
  let rxPower := SATELLITE_EIRP - FSPL - atmosphericLoss - rainLoss + TERMINAL_GAIN
  let noiseFloor := 10 * Real.logb 10 (BOLTZMANN * NOISE_TEMP * BANDWIDTH)
  let SNR := rxPower - noiseFloor - 30
  { distance := distance, FSPL := FSPL, atmosphericLoss := atmosphericLoss
    rainLoss := rainLoss, rxPower := rxPower, noiseFloor := noiseFloor
    SNR := SNR, marginDb := SNR - 10 }

end Enhanced

/-- `Math.ceil(tleList.length / MAX_DRAW)` with `MAX_DRAW = 1000`
(docs/app.js line 178, part_001 line 485): the per-frame sampling step. -/
def sampleStep (n : ℕ) : ℕ := (n + 999) / 1000

/-- The index sequence of the per-frame sampling loop
`for (let i = 0; i < tleList.length; i += step)` starting at `i`,
for a positive step. -/
def loopIndices (n s : ℕ) (hs : 0 < s) (i : ℕ) : List ℕ :=
  if h : i < n then i :: loopIndices n s hs (i + s) else []
termination_by n - i
decreasing_by omega

/-- The indices visited by one frame of the drawing loop over a TLE list of
length `n` (docs/app.js lines 176-181, part_001 lines 483-486).  When
`n = 0` the step is `0` but the loop body never runs. -/
def drawFrameIndices (n : ℕ) : List ℕ :=
  if h : 0 < sampleStep n then loopIndices n (sampleStep n) h 0 else []

/-- Invariant of the handover state: at most three candidates, the serving
satellite is not among the candidates, and the candidates have pairwise
distinct indices. -/
def Terminal.HandoverInv (s : Terminal.HandoverState) : Prop :=
  s.handoverCandidates.length ≤ 3 ∧
  (∀ serving, s.currentServingSat = some serving →
    ∀ c ∈ s.handoverCandidates, c.index ≠ serving.index) ∧
  s.handoverCandidates.Pairwise fun a b => a.index ≠ b.index

/-! Concrete test scenario used to exercise the handover simulation: three
satellite slots observed through two successive snapshots (`view1` at
acquisition time, `view2` at handover time). -/

/-- A satellite state at elevation 50 degrees. -/
def st50 : SatState := { lat := 0, lon := 0, alt := 550, az := 0, el := 50 }

/-- A satellite state at elevation 30 degrees. -/
def st30 : SatState := { lat := 0, lon := 0, alt := 550, az := 0, el := 30 }

/-- A satellite state at elevation 10 degrees. -/
def st10 : SatState := { lat := 0, lon := 0, alt := 550, az := 0, el := 10 }

/-- A satellite state at elevation 60 degrees. -/
def st60 : SatState := { lat := 0, lon := 0, alt := 550, az := 0, el := 60 }

/-- Snapshot at acquisition time: satellites 0 and 1 are up (elevations 50
and 30), slot 2 has no usable state. -/
def view1 : ℕ → Option SatState := fun i =>
  if i = 0 then some st50 else if i = 1 then some st30 else none

/-- Snapshot at handover time: satellites 0 and 1 have dropped to elevation
10 (below `elevMin` and below the hysteresis threshold), while satellite 2
is now up at elevation 60. -/
def view2 : ℕ → Option SatState := fun i =>
  if i = 0 then some st10 else if i = 1 then some st10 else if i = 2 then some st60 else none

/-- The candidate entry produced for satellite 0 under `view1`. -/
noncomputable def cand0 : Terminal.Cand :=
  { index := 0, state := st50
    snr := (Terminal.calculateLinkBudget Terminal.defaultConfig 50 0).SNR }

/-- The candidate entry produced for satellite 1 under `view1`. -/
noncomputable def cand1 : Terminal.Cand :=
  { index := 1, state := st30
    snr := (Terminal.calculateLinkBudget Terminal.defaultConfig 30 0).SNR }

/-- The handover state after the acquisition call under `view1`. -/
noncomputable def handoverState1 : Terminal.HandoverState :=
  { currentServingSat := some cand0, handoverCandidates := [cand1] }

/-- A trivial concrete instantiation of the `satellite.js` model, used to
exercise `getSatState` on a fully defined library. -/
def unitLib : SatLib Unit Unit Unit Unit :=
  { gstime := fun _ => 0
    propagate := fun _ _ => some ()
    eciToGeodetic := fun _ _ =>
      { latitude := { isFinite := true, val := 0.1 }
        longitude := { isFinite := true, val := 0.2 }
        height := { isFinite := true, val := 550 } }
    eciToEcf := fun _ _ => ()
    ecfToLookAngles := fun _ _ => { azimuth := 1, elevation := 2, rangeSat := 3 } }

/-! ## Helper lemmas -/

/-- The SNR computed by the terminal `calculateLinkBudget`, written out. -/
theorem Terminal.snr_def (config : Config) (e r : ℝ) :
    (Terminal.calculateLinkBudget config e r).SNR =
      35 - (20 * Real.logb 10 (550 / Real.sin (max e 1 * π / 180) * 1000) +
        20 * Real.logb 10 11.5e9 + 92.45) - 0.5 / Real.sin (max e 5 * π / 180) -
        (if config.considerRain then r else 0) + 33 - (-134) := rfl

/-- The tactical SNR coincides with the terminal SNR (the two function
bodies share the link-budget computation verbatim). -/
theorem Tactical.snr_eq_terminal (config : Config) (e r : ℝ) :
    (Tactical.calculateLinkBudget config e r).SNR =
      (Terminal.calculateLinkBudget
        { considerRain := config.considerRain, showFootprints := true
          maxFootprints := 5, terminalMode := true } e r).SNR := rfl

/-- The tactical data rate is the adaptive-modulation chain applied to the
computed SNR. -/
theorem Tactical.dataRate_def (config : Config) (e r : ℝ) :
    (Tactical.calculateLinkBudget config e r).dataRate =
      (if (Tactical.calculateLinkBudget config e r).SNR > 25 then (400:ℝ)
       else if (Tactical.calculateLinkBudget config e r).SNR > 20 then 350
       else if (Tactical.calculateLinkBudget config e r).SNR > 18 then 300
       else if (Tactical.calculateLinkBudget config e r).SNR > 15 then 250
       else if (Tactical.calculateLinkBudget config e r).SNR > 12 then 200
       else if (Tactical.calculateLinkBudget config e r).SNR > 8 then 150
       else 50) := rfl

/-- The tactical modulation name is the adaptive-modulation chain applied
to the computed SNR. -/
theorem Tactical.modulation_def (config : Config) (e r : ℝ) :
    (Tactical.calculateLinkBudget config e r).modulation =
      (if (Tactical.calculateLinkBudget config e r).SNR > 25 then "256-APSK"
       else if (Tactical.calculateLinkBudget config e r).SNR > 20 then "128-APSK"
       else if (Tactical.calculateLinkBudget config e r).SNR > 18 then "64-APSK"
       else if (Tactical.calculateLinkBudget config e r).SNR > 15 then "32-APSK"
       else if (Tactical.calculateLinkBudget config e r).SNR > 12 then "16-APSK"
       else if (Tactical.calculateLinkBudget config e r).SNR > 8 then "8PSK"
       else "QPSK") := rfl

/-- Sine of an angle given in degrees is positive on `(0, 180)`. -/
theorem sin_deg_pos {x : ℝ} (h1 : 0 < x) (h2 : x < 180) :
    0 < Real.sin (x * π / 180) := by
  apply Real.sin_pos_of_pos_of_lt_pi
  · positivity
  · rw [div_lt_iff₀ (by norm_num : (0:ℝ) < 180)] at *
    nlinarith [Real.pi_pos]

/-- Sine in degrees is strictly monotone on `[0, 90]`. -/
theorem sin_deg_lt {a b : ℝ} (h0 : 0 ≤ a) (hab : a < b) (hb : b ≤ 90) :
    Real.sin (a * π / 180) < Real.sin (b * π / 180) := by
  apply Real.sin_lt_sin_of_lt_of_le_pi_div_two
  · nlinarith [Real.pi_pos]
  · nlinarith [Real.pi_pos]
  · nlinarith [Real.pi_pos]

/-- Sine in degrees is monotone on `[0, 90]`. -/
theorem sin_deg_le {a b : ℝ} (h0 : 0 ≤ a) (hab : a ≤ b) (hb : b ≤ 90) :
    Real.sin (a * π / 180) ≤ Real.sin (b * π / 180) := by
  apply Real.sin_le_sin_of_le_of_le_pi_div_two
  · nlinarith [Real.pi_pos]
  · nlinarith [Real.pi_pos]
  · nlinarith [Real.pi_pos]

/-- The terminal SNR is strictly increasing in the elevation on `[1, 90]`
(for any fixed rain attenuation). -/
theorem Terminal.snr_strictMono (config : Config) (r : ℝ) {a b : ℝ}
    (h1 : 1 ≤ a) (hab : a < b) (hb : b ≤ 90) :
    (Terminal.calculateLinkBudget config a r).SNR <
      (Terminal.calculateLinkBudget config b r).SNR := by
  rw [Terminal.snr_def, Terminal.snr_def]
  rw [max_eq_left h1, max_eq_left (h1.trans hab.le)]
  have hsa : 0 < Real.sin (a * π / 180) :=
    sin_deg_pos (by linarith) (by linarith)
  have hsb : 0 < Real.sin (b * π / 180) :=
    sin_deg_pos (by linarith) (by linarith)
  have hsab : Real.sin (a * π / 180) < Real.sin (b * π / 180) :=
    sin_deg_lt (by linarith) hab hb
  have hlog : Real.logb 10 (550 / Real.sin (b * π / 180) * 1000) <
      Real.logb 10 (550 / Real.sin (a * π / 180) * 1000) := by
    apply Real.logb_lt_logb (by norm_num)
    · positivity
    · have : 550 / Real.sin (b * π / 180) < 550 / Real.sin (a * π / 180) :=
        div_lt_div_of_pos_left (by norm_num) hsa hsab
      linarith
  have hA5 : (5:ℝ) ≤ max a 5 := le_max_right a 5
  have hAB : max a 5 ≤ max b 5 := max_le_max hab.le le_rfl
  have hB90 : max b 5 ≤ 90 := max_le hb (by norm_num)
  have hsA : 0 < Real.sin (max a 5 * π / 180) :=
    sin_deg_pos (by linarith) (by linarith [hAB.trans hB90])
  have hsB : 0 < Real.sin (max b 5 * π / 180) :=
    sin_deg_pos (by linarith [hA5.trans hAB]) (by linarith)
  have hsABle : Real.sin (max a 5 * π / 180) ≤ Real.sin (max b 5 * π / 180) :=
    sin_deg_le (by linarith) hAB hB90
  have hatm : 0.5 / Real.sin (max b 5 * π / 180) ≤ 0.5 / Real.sin (max a 5 * π / 180) := by
    apply div_le_div_of_nonneg_left (by norm_num) hsA hsABle
  linarith

/-- Below one degree of elevation the terminal SNR is constant (both
clamps saturate). -/
theorem Terminal.snr_low (config : Config) (r : ℝ) {e : ℝ} (he : e ≤ 1) :
    (Terminal.calculateLinkBudget config e r).SNR =
      (Terminal.calculateLinkBudget config 1 r).SNR := by
  rw [Terminal.snr_def, Terminal.snr_def, max_eq_right he,
    max_eq_right (he.trans (by norm_num : (1:ℝ) ≤ 5)),
    max_self, max_eq_right (by norm_num : (1:ℝ) ≤ 5)]

/-! ## C3: the terminal/tactical link budget is the closed-form expression -/

/-- C3: for every elevation `e` and rain attenuation `r`,
`calculateLinkBudget` in the terminal and tactical variants returns SNR
equal to the closed-form pointwise expression
`(35 - FSPL - 0.5/sin(max(e,5)°) - rr + 33) - (-134)` with
`FSPL = 20·log10(1000·550/sin(max(e,1)°)) + 20·log10(11.5e9) + 92.45` and
`rr = r` when rain consideration is enabled and `0` otherwise.  The
embedded functions are pure (no iteration or state). -/
theorem c3_linkBudget_closed_form (ct : Terminal.Config) (ctac : Tactical.Config) (e r : ℝ) :
    (Terminal.calculateLinkBudget ct e r).SNR =
      (35 - (20 * Real.logb 10 (1000 * 550 / Real.sin (max e 1 * π / 180)) +
        20 * Real.logb 10 11.5e9 + 92.45) -
        0.5 / Real.sin (max e 5 * π / 180) -
        (if ct.considerRain then r else 0) + 33) - (-134) ∧
    (Tactical.calculateLinkBudget ctac e r).SNR =
      (35 - (20 * Real.logb 10 (1000 * 550 / Real.sin (max e 1 * π / 180)) +
        20 * Real.logb 10 11.5e9 + 92.45) -
        0.5 / Real.sin (max e 5 * π / 180) -
        (if ctac.considerRain then r else 0) + 33) - (-134) := by
  have harg : (1000:ℝ) * 550 / Real.sin (max e 1 * π / 180) =
      550 / Real.sin (max e 1 * π / 180) * 1000 := by ring
  constructor
  · rw [Terminal.snr_def, harg]
  · rw [Tactical.snr_eq_terminal, Terminal.snr_def, harg]

/-! ## C6: adaptive modulation is a monotone step function of the SNR -/

/-- The data-rate step chain is monotone in the SNR. -/
theorem rateChain_mono {s t : ℝ} (h : s ≤ t) :
    (if s > 25 then (400:ℝ) else if s > 20 then 350 else if s > 18 then 300
     else if s > 15 then 250 else if s > 12 then 200 else if s > 8 then 150 else 50) ≤
    (if t > 25 then (400:ℝ) else if t > 20 then 350 else if t > 18 then 300
     else if t > 15 then 250 else if t > 12 then 200 else if t > 8 then 150 else 50) := by
  split_ifs <;> linarith

/-- C6: the tactical `calculateLinkBudget` simulates the modulation choice
as a pure step function of the computed SNR (256-APSK/400 above 25 dB down
to QPSK/50 at or below 8 dB), and a higher SNR never yields a lower
reported data rate. -/
theorem c6_modulation_step (config : Tactical.Config) (e r : ℝ) :
    ((Tactical.calculateLinkBudget config e r).modulation =
      (if (Tactical.calculateLinkBudget config e r).SNR > 25 then "256-APSK"
       else if (Tactical.calculateLinkBudget config e r).SNR > 20 then "128-APSK"
       else if (Tactical.calculateLinkBudget config e r).SNR > 18 then "64-APSK"
       else if (Tactical.calculateLinkBudget config e r).SNR > 15 then "32-APSK"
       else if (Tactical.calculateLinkBudget config e r).SNR > 12 then "16-APSK"
       else if (Tactical.calculateLinkBudget config e r).SNR > 8 then "8PSK"
       else "QPSK") ∧
     (Tactical.calculateLinkBudget config e r).dataRate =
      (if (Tactical.calculateLinkBudget config e r).SNR > 25 then (400:ℝ)
       else if (Tactical.calculateLinkBudget config e r).SNR > 20 then 350
       else if (Tactical.calculateLinkBudget config e r).SNR > 18 then 300
       else if (Tactical.calculateLinkBudget config e r).SNR > 15 then 250
       else if (Tactical.calculateLinkBudget config e r).SNR > 12 then 200
       else if (Tactical.calculateLinkBudget config e r).SNR > 8 then 150
       else 50)) ∧
    ∀ (c2 : Tactical.Config) (e2 r2 : ℝ) (c3 : Tactical.Config) (e3 r3 : ℝ),
      (Tactical.calculateLinkBudget c2 e2 r2).SNR ≤ (Tactical.calculateLinkBudget c3 e3 r3).SNR →
      (Tactical.calculateLinkBudget c2 e2 r2).dataRate ≤
        (Tactical.calculateLinkBudget c3 e3 r3).dataRate := by
  refine ⟨⟨Tactical.modulation_def config e r, Tactical.dataRate_def config e r⟩, ?_⟩
  intro c2 e2 r2 c3 e3 r3 hle
  rw [Tactical.dataRate_def, Tactical.dataRate_def]
  exact rateChain_mono hle

/-- Witness for C6 at a concrete pair of inputs. -/
theorem c6_modulation_step_witness :
    (Tactical.calculateLinkBudget Tactical.defaultConfig 30 0).dataRate ≤
      (Tactical.calculateLinkBudget Tactical.defaultConfig 30 0).dataRate :=
  (c6_modulation_step Tactical.defaultConfig 30 0).2
    Tactical.defaultConfig 30 0 Tactical.defaultConfig 30 0 le_rfl

/-! ## C10: the sampling loop draws at most 1000 markers -/

/-- The loop starting at `i` visits at most `k` indices when
`n ≤ i + s * k`. -/
theorem loopIndices_length_le (n s : ℕ) (hs : 0 < s) :
    ∀ (k i : ℕ), n ≤ i + s * k → (loopIndices n s hs i).length ≤ k := by
  intro k
  induction k with
  | zero =>
    intro i h
    rw [loopIndices]
    simp only [Nat.mul_zero, Nat.add_zero] at h
    rw [dif_neg (by omega)]
    simp
  | succ k ih =>
    intro i h
    rw [loopIndices]
    by_cases hi : i < n
    · rw [dif_pos hi]
      rw [Nat.mul_succ] at h
      simpa using ih (i + s) (by omega)
    · rw [dif_neg hi]
      simp

/-- C10: for every TLE-list length `n`, the per-frame sampling loop with
step `ceil(n / 1000)` visits at most 1000 indices, so each frame draws at
most 1000 markers. -/
theorem c10_at_most_1000_markers (n : ℕ) : (drawFrameIndices n).length ≤ 1000 := by
  unfold drawFrameIndices
  by_cases h : 0 < sampleStep n
  · rw [dif_pos h]
    apply loopIndices_length_le n (sampleStep n) h 1000 0
    unfold sampleStep at *
    omega
  · rw [dif_neg h]
    simp

/-! ## C4: rain attenuation formula and bounds -/

/-- The tactical rain attenuation coincides with the terminal one (the two
function bodies are identical). -/
theorem Tactical.rain_eq_terminal (config : Config) (e p : ℝ) :
    Tactical.calculateRainAttenuation config e p =
      Terminal.calculateRainAttenuation
        { considerRain := config.considerRain, showFootprints := true
          maxFootprints := 5, terminalMode := true } e p := rfl

/-- With rain consideration enabled, the terminal rain attenuation is the
capped ITU-style formula. -/
theorem Terminal.rain_formula (config : Config) (hcr : config.considerRain = true) (e p : ℝ) :
    Terminal.calculateRainAttenuation config e p =
      min (0.0101 * (11.5:ℝ) ^ (2.03:ℝ) * p ^ (1.065:ℝ) *
        min (550 / Real.sin (max e 5 * π / 180) / 10) 5) 20 := by
  unfold Terminal.calculateRainAttenuation
  by_cases hp : p = 0
  · rw [if_pos (Or.inl hp), hp, Real.zero_rpow (by norm_num), mul_zero, zero_mul,
      min_eq_left (by norm_num)]
  · rw [if_neg (by simp [hp, hcr])]

/-- The terminal rain attenuation is zero when the precipitation is zero or
rain consideration is disabled. -/
theorem Terminal.rain_zero (config : Config) (e p : ℝ)
    (h : p = 0 ∨ config.considerRain = false) :
    Terminal.calculateRainAttenuation config e p = 0 := by
  unfold Terminal.calculateRainAttenuation
  rw [if_pos h]

/-- The terminal rain attenuation lies in `[0, 20]` dB for look-angle
elevations and nonnegative precipitation. -/
theorem Terminal.rain_bounds (config : Config) (e p : ℝ)
    (he1 : -90 ≤ e) (he2 : e ≤ 90) (hp : 0 ≤ p) :
    0 ≤ Terminal.calculateRainAttenuation config e p ∧
      Terminal.calculateRainAttenuation config e p ≤ 20 := by
  unfold Terminal.calculateRainAttenuation
  split_ifs with h
  · norm_num
  · have hsin : 0 < Real.sin (max e 5 * π / 180) :=
      sin_deg_pos (lt_of_lt_of_le (by norm_num) (le_max_right e 5))
        (lt_of_le_of_lt (max_le he2 (by norm_num)) (by norm_num))
    have hmin : 0 ≤ min (550 / Real.sin (max e 5 * π / 180) / 10) 5 :=
      le_min (by positivity) (by norm_num)
    have hk : (0:ℝ) ≤ 0.0101 * (11.5:ℝ) ^ (2.03:ℝ) := by positivity
    have hpa : 0 ≤ p ^ (1.065:ℝ) := Real.rpow_nonneg hp _
    exact ⟨le_min (mul_nonneg (mul_nonneg hk hpa) hmin) (by norm_num),
      min_le_right _ _⟩

/-- C4: for every elevation `e ∈ [-90, 90]` and precipitation `p ≥ 0`,
`calculateRainAttenuation` (terminal and tactical variants) returns
`min(0.0101·11.5^2.03·p^1.065·min((550/sin(max(e,5)°))/10, 5), 20)` when
rain consideration is enabled, returns exactly `0` when `p = 0` or rain
consideration is disabled, and the returned attenuation always lies in
`[0, 20]` dB.  The hypotheses on `e` and `p` reflect the call sites: `e`
is a look-angle elevation and `p` a nonnegative precipitation rate. -/
theorem c4_rain_attenuation (ct : Terminal.Config) (ctac : Tactical.Config)
    (e p : ℝ) (he1 : -90 ≤ e) (he2 : e ≤ 90) (hp : 0 ≤ p) :
    (ct.considerRain = true →
      Terminal.calculateRainAttenuation ct e p =
        min (0.0101 * (11.5:ℝ) ^ (2.03:ℝ) * p ^ (1.065:ℝ) *
          min (550 / Real.sin (max e 5 * π / 180) / 10) 5) 20) ∧
    (p = 0 ∨ ct.considerRain = false → Terminal.calculateRainAttenuation ct e p = 0) ∧
    0 ≤ Terminal.calculateRainAttenuation ct e p ∧
    Terminal.calculateRainAttenuation ct e p ≤ 20 ∧
    (ctac.considerRain = true →
      Tactical.calculateRainAttenuation ctac e p =
        min (0.0101 * (11.5:ℝ) ^ (2.03:ℝ) * p ^ (1.065:ℝ) *
          min (550 / Real.sin (max e 5 * π / 180) / 10) 5) 20) ∧
    (p = 0 ∨ ctac.considerRain = false → Tactical.calculateRainAttenuation ctac e p = 0) ∧
    0 ≤ Tactical.calculateRainAttenuation ctac e p ∧
    Tactical.calculateRainAttenuation ctac e p ≤ 20 := by
  refine ⟨fun h => Terminal.rain_formula ct h e p,
    fun h => Terminal.rain_zero ct e p h,
    (Terminal.rain_bounds ct e p he1 he2 hp).1,
    (Terminal.rain_bounds ct e p he1 he2 hp).2, ?_, ?_, ?_, ?_⟩
  · intro h
    rw [Tactical.rain_eq_terminal]
    exact Terminal.rain_formula _ h e p
  · intro h
    rw [Tactical.rain_eq_terminal]
    exact Terminal.rain_zero _ e p h
  · rw [Tactical.rain_eq_terminal]
    exact (Terminal.rain_bounds _ e p he1 he2 hp).1
  · rw [Tactical.rain_eq_terminal]
    exact (Terminal.rain_bounds _ e p he1 he2 hp).2

/-- Witness for C4 at a concrete input. -/
theorem c4_rain_attenuation_witness :
    (Terminal.defaultConfig.considerRain = true →
      Terminal.calculateRainAttenuation Terminal.defaultConfig 45 0 =
        min (0.0101 * (11.5:ℝ) ^ (2.03:ℝ) * (0:ℝ) ^ (1.065:ℝ) *
          min (550 / Real.sin (max 45 5 * π / 180) / 10) 5) 20) ∧
    ((0:ℝ) = 0 ∨ Terminal.defaultConfig.considerRain = false →
      Terminal.calculateRainAttenuation Terminal.defaultConfig 45 0 = 0) ∧
    0 ≤ Terminal.calculateRainAttenuation Terminal.defaultConfig 45 0 ∧
    Terminal.calculateRainAttenuation Terminal.defaultConfig 45 0 ≤ 20 ∧
    (Tactical.defaultConfig.considerRain = true →
      Tactical.calculateRainAttenuation Tactical.defaultConfig 45 0 =
        min (0.0101 * (11.5:ℝ) ^ (2.03:ℝ) * (0:ℝ) ^ (1.065:ℝ) *
          min (550 / Real.sin (max 45 5 * π / 180) / 10) 5) 20) ∧
    ((0:ℝ) = 0 ∨ Tactical.defaultConfig.considerRain = false →
      Tactical.calculateRainAttenuation Tactical.defaultConfig 45 0 = 0) ∧
    0 ≤ Tactical.calculateRainAttenuation Tactical.defaultConfig 45 0 ∧
    Tactical.calculateRainAttenuation Tactical.defaultConfig 45 0 ≤ 20 :=
  c4_rain_attenuation Terminal.defaultConfig Tactical.defaultConfig 45 0
    (by norm_num) (by norm_num) (by norm_num)

/-! ## C5: the visibility colour factors through the link-budget SNR -/

/-- C5: for the elevation thresholds the dashboards use (`elevMin` strictly
between 1 and 90 degrees, default 25), the marker colour that classifies a
satellite as visible versus not visible is a function of the
link-budget SNR of the satellite: there are `f` and `g` with
`color(e) = f(SNR(e))` (basic variant) and `color(e) = g(SNR(e))`
(terminal variant, non-serving non-candidate markers) for every look-angle
elevation `e ∈ [-90, 90]`. -/
theorem c5_color_function_of_snr (lat lon m : ℝ) (config : Terminal.Config) (r : ℝ)
    (hm1 : 1 < m) (hm2 : m ≤ 90) :
    ∃ f g : ℝ → String, ∀ e : ℝ, -90 ≤ e → e ≤ 90 →
      Basic.markerColor { lat := lat, lon := lon, elevMin := m } e =
        f ((Terminal.calculateLinkBudget config e r).SNR) ∧
      Terminal.markerColor { lat := lat, lon := lon, elevMin := m } false false e =
        g ((Terminal.calculateLinkBudget config e r).SNR) := by
  refine ⟨fun s => if s < (Terminal.calculateLinkBudget config m r).SNR
      then "#4488ff" else "#00ff44",
    fun s => if s < (Terminal.calculateLinkBudget config m r).SNR
      then "#004400" else "#00ff00",
    fun e he1 he2 => ?_⟩
  by_cases hem : m ≤ e
  · have hge : (Terminal.calculateLinkBudget config m r).SNR ≤
        (Terminal.calculateLinkBudget config e r).SNR := by
      rcases eq_or_lt_of_le hem with h | h
      · rw [h]
      · exact (Terminal.snr_strictMono config r hm1.le h he2).le
    have hnlt : ¬ ((Terminal.calculateLinkBudget config e r).SNR <
        (Terminal.calculateLinkBudget config m r).SNR) := not_lt.mpr hge
    simp [Basic.markerColor, Terminal.markerColor, hem, hnlt]
  · push_neg at hem
    have hlt : (Terminal.calculateLinkBudget config e r).SNR <
        (Terminal.calculateLinkBudget config m r).SNR := by
      rcases le_or_lt 1 e with h1 | h1
      · exact Terminal.snr_strictMono config r h1 hem hm2
      · calc (Terminal.calculateLinkBudget config e r).SNR
            = (Terminal.calculateLinkBudget config 1 r).SNR :=
              Terminal.snr_low config r h1.le
          _ < (Terminal.calculateLinkBudget config m r).SNR :=
              Terminal.snr_strictMono config r le_rfl hm1 hm2
    simp [Basic.markerColor, Terminal.markerColor, hem.not_le, hlt]

/-- Witness for C5 at the default observer and configuration. -/
theorem c5_color_function_of_snr_witness :
    ∃ f g : ℝ → String, ∀ e : ℝ, -90 ≤ e → e ≤ 90 →
      Basic.markerColor { lat := -27.588, lon := -48.613, elevMin := 25 } e =
        f ((Terminal.calculateLinkBudget Terminal.defaultConfig e 0).SNR) ∧
      Terminal.markerColor { lat := -27.588, lon := -48.613, elevMin := 25 } false false e =
        g ((Terminal.calculateLinkBudget Terminal.defaultConfig e 0).SNR) :=
  c5_color_function_of_snr (-27.588) (-48.613) 25 Terminal.defaultConfig 0
    (by norm_num) (by norm_num)

/-! ## C7: the enhanced variant computes a different SNR -/

/-- The SNR computed by the enhanced `calculateLinkBudget`, written out. -/
theorem Enhanced.enh_snr_def (e f : ℝ) :
    (Enhanced.calculateLinkBudget e f).SNR =
      35 - (20 * Real.logb 10 (550 / Real.sin (e * π / 180) * 1000) +
        20 * Real.logb 10 f + 20 * Real.logb 10 (4 * π / 299792458)) -
        0.5 / Real.sin (max e 5 * π / 180) -
        (if e < 10 then (3:ℝ) else if e < 20 then 1.5 else 0.5) + 33 -
        10 * Real.logb 10 (1.38e-23 * 290 * 250e6) - 30 := rfl

/-- For elevations at or above 20 degrees the terminal SNR is strictly
below the enhanced SNR at the same elevation and frequency: the two
variants use different FSPL constants, rain-loss models and noise floors. -/
theorem term_snr_lt_enh (config : Terminal.Config) {e : ℝ} (he : 20 ≤ e) :
    (Terminal.calculateLinkBudget config e 0).SNR <
      (Enhanced.calculateLinkBudget e Enhanced.FREQ_DOWNLINK).SNR := by
  rw [Terminal.snr_def, Enhanced.enh_snr_def]
  rw [max_eq_left (by linarith : (1:ℝ) ≤ e)]
  rw [if_neg (by linarith : ¬ e < 10), if_neg (by linarith : ¬ e < 20), ite_self]
  have hF : Enhanced.FREQ_DOWNLINK = (11.5e9:ℝ) := rfl
  rw [hF]
  have hZ : Real.logb 10 (4 * π / 299792458) < -7 := by
    rw [Real.logb_lt_iff_lt_rpow (by norm_num) (by positivity)]
    have h4 : (4:ℝ) * π < 13 := by nlinarith [Real.pi_lt_d2]
    have h7 : ((10:ℝ) ^ (-7 : ℝ)) = 1 / 10 ^ (7:ℕ) := by
      rw [show (-7:ℝ) = ((-7 : ℤ) : ℝ) by norm_num, Real.rpow_intCast]
      norm_num
    rw [h7, div_lt_div_iff₀ (by norm_num) (by norm_num)]
    nlinarith
  have hNF : Real.logb 10 (1.38e-23 * 290 * 250e6) < -11 := by
    rw [Real.logb_lt_iff_lt_rpow (by norm_num)
      (by norm_num : (0:ℝ) < 1.38e-23 * 290 * 250e6)]
    have h11 : ((10:ℝ) ^ (-11 : ℝ)) = 1 / 10 ^ (11:ℕ) := by
      rw [show (-11:ℝ) = ((-11 : ℤ) : ℝ) by norm_num, Real.rpow_intCast]
      norm_num
    rw [h11]
    norm_num
  linarith

/-- C7 counterexample: at elevation 90 degrees (and zero rain attenuation
in the terminal variant) the enhanced ("pro") SNR differs from the
terminal SNR, refuting the claimed equality of the two link budgets. -/
theorem c7_counterexample :
    (Enhanced.calculateLinkBudget 90 Enhanced.FREQ_DOWNLINK).SNR ≠
      (Terminal.calculateLinkBudget Terminal.defaultConfig 90 0).SNR :=
  ne_of_gt (term_snr_lt_enh Terminal.defaultConfig (by norm_num : (20:ℝ) ≤ 90))

/-- C7 corrected: the enhanced ("pro") variant does not compute the same
SNR as the terminal/tactical variants; for every elevation at or above 20
degrees (with rain attenuation taken as zero) its SNR is strictly larger,
because the variants use different FSPL constants, rain-loss models and
noise floors. -/
theorem c7_amended (ct : Terminal.Config) (ctac : Tactical.Config) {e : ℝ} (he : 20 ≤ e) :
    (Terminal.calculateLinkBudget ct e 0).SNR <
      (Enhanced.calculateLinkBudget e Enhanced.FREQ_DOWNLINK).SNR ∧
    (Tactical.calculateLinkBudget ctac e 0).SNR <
      (Enhanced.calculateLinkBudget e Enhanced.FREQ_DOWNLINK).SNR := by
  refine ⟨term_snr_lt_enh ct he, ?_⟩
  rw [Tactical.snr_eq_terminal]
  exact term_snr_lt_enh _ he

/-- Witness for C7 (amended) at elevation 45 degrees. -/
theorem c7_amended_witness :
    (Terminal.calculateLinkBudget Terminal.defaultConfig 45 0).SNR <
      (Enhanced.calculateLinkBudget 45 Enhanced.FREQ_DOWNLINK).SNR ∧
    (Tactical.calculateLinkBudget Tactical.defaultConfig 45 0).SNR <
      (Enhanced.calculateLinkBudget 45 Enhanced.FREQ_DOWNLINK).SNR :=
  c7_amended Terminal.defaultConfig Tactical.defaultConfig (by norm_num : (20:ℝ) ≤ 45)

/-! ## Handover machinery: helper lemmas -/

/-- The comparator of `simulateHandover` is transitive. -/
theorem Terminal.handoverLe_trans :
    ∀ a b c : Terminal.Cand,
      Terminal.handoverLe a b → Terminal.handoverLe b c → Terminal.handoverLe a c := by
  intro a b c hab hbc
  simp only [Terminal.handoverLe, decide_eq_true_eq] at *
  exact le_trans hbc hab

/-- The comparator of `simulateHandover` is total. -/
theorem Terminal.handoverLe_total :
    ∀ a b : Terminal.Cand, Terminal.handoverLe a b || Terminal.handoverLe b a := by
  intro a b
  simp only [Terminal.handoverLe, Bool.or_eq_true, decide_eq_true_eq]
  exact le_total b.snr a.snr

/-- Sorting a two-element list whose first element is already in place. -/
theorem mergeSort_pair {α : Type} (le : α → α → Bool) (a b : α) (h : le a b = true) :
    [a, b].mergeSort le = [a, b] := by
  simp [List.mergeSort, List.splitInTwo, List.splitAt_eq, List.merge, h]

/-- Every produced `visible` entry carries the index it was built from. -/
theorem Terminal.visEntry_index (config : Config) (obs : Observer)
    (weather : Option ℝ) (view : ℕ → Option SatState) (i : ℕ) (c : Cand)
    (h : Terminal.visEntry config obs weather view i = some c) : c.index = i := by
  unfold Terminal.visEntry at h
  split at h
  · cases h
  · split at h
    · cases h
    · simp only [Option.some.injEq] at h
      rw [← h]

/-- The `visible` list has pairwise distinct indices. -/
theorem Terminal.visibleCands_pairwise (config : Config) (obs : Observer)
    (weather : Option ℝ) (n : ℕ) (view : ℕ → Option SatState) :
    (Terminal.visibleCands config obs weather n view).Pairwise
      fun a b => a.index ≠ b.index := by
  unfold Terminal.visibleCands
  apply List.Pairwise.filterMap (Terminal.visEntry config obs weather view) ?_
    (List.pairwise_lt_range n)
  intro i j hij c hc c2 hc2
  rw [Option.mem_def] at hc hc2
  rw [Terminal.visEntry_index config obs weather view i c hc,
    Terminal.visEntry_index config obs weather view j c2 hc2]
  exact Nat.ne_of_lt hij

/-- `promote` installs the head of the candidate list (or drops the
connection when there is none). -/
theorem Terminal.promote_head (s : Terminal.HandoverState) :
    (Terminal.promote s).currentServingSat = s.handoverCandidates.head? := by
  cases hc : s.handoverCandidates <;> simp [Terminal.promote, hc]

/-- `promote` preserves the handover invariant. -/
theorem Terminal.promote_inv {s : Terminal.HandoverState}
    (h : Terminal.HandoverInv s) : Terminal.HandoverInv (Terminal.promote s) := by
  obtain ⟨hlen, hserv, hpair⟩ := h
  cases hc : s.handoverCandidates with
  | nil =>
    have hpro : Terminal.promote s =
        { currentServingSat := none, handoverCandidates := s.handoverCandidates } := by
      unfold Terminal.promote
      rw [hc]
    rw [hpro, hc]
    exact ⟨by simp, by simp, by simp⟩
  | cons a l =>
    have hpro : Terminal.promote s =
        { currentServingSat := some a, handoverCandidates := l } := by
      unfold Terminal.promote
      rw [hc]
    rw [hpro]
    rw [hc] at hlen hpair
    obtain ⟨hhead, htail⟩ := List.pairwise_cons.mp hpair
    refine ⟨?_, ?_, htail⟩
    · simp only [List.length_cons] at hlen
      simpa using Nat.le_of_succ_le hlen
    · intro serving hserving c hcmem
      injection hserving with hb
      rw [← hb]
      exact (hhead c hcmem).symm

/-! ## Concrete evaluation of the handover scenario -/

/-- Under `view1`, satellite 0 yields the entry `cand0`. -/
theorem visEntry1_0 :
    Terminal.visEntry Terminal.defaultConfig defaultObs none view1 0 = some cand0 := by
  unfold Terminal.visEntry
  norm_num [view1, st50, defaultObs, Terminal.defaultConfig, cand0]

/-- Under `view1`, satellite 1 yields the entry `cand1`. -/
theorem visEntry1_1 :
    Terminal.visEntry Terminal.defaultConfig defaultObs none view1 1 = some cand1 := by
  unfold Terminal.visEntry
  norm_num [view1, st30, defaultObs, Terminal.defaultConfig, cand1]

/-- Under `view1`, slot 2 yields no entry. -/
theorem visEntry1_2 :
    Terminal.visEntry Terminal.defaultConfig defaultObs none view1 2 = none := by
  unfold Terminal.visEntry
  norm_num [view1]

/-- Under `view1`, satellites 0 and 1 are visible and slot 2 is skipped. -/
theorem vis1_eq :
    Terminal.visibleCands Terminal.defaultConfig defaultObs none 3 view1 = [cand0, cand1] := by
  unfold Terminal.visibleCands
  rw [show List.range 3 = [0, 1, 2] from rfl]
  rw [List.filterMap_cons, List.filterMap_cons, List.filterMap_cons, List.filterMap_nil,
    visEntry1_0, visEntry1_1, visEntry1_2]

/-- Under `view1`, the satellite at elevation 30 has strictly lower SNR
than the one at elevation 50. -/
theorem cand1_snr_lt : cand1.snr < cand0.snr := by
  simp only [cand0, cand1]
  exact Terminal.snr_strictMono Terminal.defaultConfig 0
    (by norm_num) (by norm_num) (by norm_num)

/-- The comparator orders `cand0` before `cand1`. -/
theorem handoverLe_cand01 : Terminal.handoverLe cand0 cand1 = true := by
  unfold Terminal.handoverLe
  exact decide_eq_true cand1_snr_lt.le

/-- The acquisition call: satellite 0 becomes serving, satellite 1 the
only candidate. -/
theorem firstCall_eq :
    Terminal.simulateHandover Terminal.defaultConfig defaultObs none 3 view1
      Terminal.initialHandoverState = handoverState1 := by
  unfold Terminal.simulateHandover
  rw [vis1_eq, mergeSort_pair Terminal.handoverLe cand0 cand1 handoverLe_cand01]
  simp [Terminal.initialHandoverState, handoverState1]

/-- The handover call: the serving satellite has dropped to elevation 10,
so the stale candidate (satellite 1, also at elevation 10 now) is
promoted. -/
theorem secondCall_eq :
    Terminal.simulateHandover Terminal.defaultConfig defaultObs none 3 view2 handoverState1 =
      { currentServingSat := some cand1, handoverCandidates := [] } := by
  unfold Terminal.simulateHandover
  norm_num [handoverState1, cand0, view2, st10, defaultObs, Terminal.promote]

/-! ## C1: best-SNR selection (corrected) -/

/-- C1 counterexample: after acquisition under `view1`, the snapshot
changes to `view2` (serving satellite 0 drops to elevation 10, candidate
satellite 1 also drops to elevation 10, satellite 2 rises to elevation
60).  The executed handover selects the stored candidate `cand1`, whose
satellite is not even visible at the moment of selection, while the
visible satellite 2 is ignored: the selected satellite is not the one
with the highest link-budget SNR among the currently visible satellites. -/
theorem c1_counterexample :
    (Terminal.simulateHandover Terminal.defaultConfig defaultObs none 3 view2
      (Terminal.simulateHandover Terminal.defaultConfig defaultObs none 3 view1
        Terminal.initialHandoverState)).currentServingSat = some cand1 ∧
    view2 cand1.index = some st10 ∧ st10.el < defaultObs.elevMin ∧
    view2 2 = some st60 ∧ defaultObs.elevMin ≤ st60.el := by
  refine ⟨?_, rfl, ?_, rfl, ?_⟩
  · rw [firstCall_eq, secondCall_eq]
  · norm_num [st10, defaultObs]
  · norm_num [st60, defaultObs]

/-- C1 corrected: at initial acquisition the selected serving satellite is
one with the highest link-budget SNR among the currently visible
satellites; at an executed handover, however, the new serving satellite is
simply the head of the candidate list stored at acquisition time (or the
connection is dropped when none remains), with no re-evaluation against
the currently visible satellites. -/
theorem c1_best_snr_selection (config : Terminal.Config) (obs : Observer)
    (weather : Option ℝ) (n : ℕ) (view : ℕ → Option SatState) :
    (∀ (s : Terminal.HandoverState) (c : Terminal.Cand),
      s.currentServingSat = none →
      (Terminal.simulateHandover config obs weather n view s).currentServingSat = some c →
      c ∈ Terminal.visibleCands config obs weather n view ∧
        ∀ d ∈ Terminal.visibleCands config obs weather n view, d.snr ≤ c.snr) ∧
    (∀ (s : Terminal.HandoverState) (serving : Terminal.Cand),
      s.currentServingSat = some serving →
      (view serving.index = none ∨
        ∃ st, view serving.index = some st ∧ st.el < obs.elevMin - 5) →
      (Terminal.simulateHandover config obs weather n view s).currentServingSat =
        s.handoverCandidates.head?) := by
  constructor
  · intro s c hs hc
    unfold Terminal.simulateHandover at hc
    rw [hs] at hc
    cases hsort : (Terminal.visibleCands config obs weather n view).mergeSort
        Terminal.handoverLe with
    | nil => rw [hsort] at hc; simp only at hc; rw [hs] at hc; cases hc
    | cons best rest =>
      rw [hsort] at hc
      simp only [Option.some.injEq] at hc
      have hperm := List.mergeSort_perm (Terminal.visibleCands config obs weather n view)
        Terminal.handoverLe
      rw [hsort] at hperm
      have hsorted := List.sorted_mergeSort
        Terminal.handoverLe_trans Terminal.handoverLe_total
        (Terminal.visibleCands config obs weather n view)
      rw [hsort] at hsorted
      rw [← hc]
      constructor
      · exact hperm.mem_iff.mp (List.mem_cons_self best rest)
      · intro d hd
        have hd2 : d ∈ best :: rest := hperm.mem_iff.mpr hd
        rcases List.mem_cons.mp hd2 with h | h
        · rw [h]
        · have hb := (List.pairwise_cons.mp hsorted).1 d h
          simpa [Terminal.handoverLe, decide_eq_true_eq] using hb
  · intro s serving hs hbad
    unfold Terminal.simulateHandover
    rcases hbad with hnone | ⟨st, hst, hlt⟩
    · simp only [hs, hnone]
      exact Terminal.promote_head s
    · simp only [hs, hst]
      rw [if_pos hlt]
      exact Terminal.promote_head s

/-- Witness for C1 (amended): both the acquisition conclusion (under
`view1`) and the handover conclusion (under `view2`) at concrete inputs. -/
theorem c1_best_snr_selection_witness :
    (cand0 ∈ Terminal.visibleCands Terminal.defaultConfig defaultObs none 3 view1 ∧
      ∀ d ∈ Terminal.visibleCands Terminal.defaultConfig defaultObs none 3 view1,
        d.snr ≤ cand0.snr) ∧
    (Terminal.simulateHandover Terminal.defaultConfig defaultObs none 3 view2
        handoverState1).currentServingSat = handoverState1.handoverCandidates.head? := by
  constructor
  · exact (c1_best_snr_selection Terminal.defaultConfig defaultObs none 3 view1).1
      Terminal.initialHandoverState cand0 rfl (by rw [firstCall_eq]; rfl)
  · exact (c1_best_snr_selection Terminal.defaultConfig defaultObs none 3 view2).2
      handoverState1 cand0 rfl
      (Or.inr ⟨st10, rfl, by norm_num [st10, defaultObs]⟩)

/-! ## C2: hysteresis stability of the serving satellite -/

/-- C2: while the handover simulation has a serving satellite, nothing
changes as long as the current state of the serving satellite is computable and
its elevation stays at or above `obs.elevMin - 5`; consequently a handover
or loss of connection can only happen when the state is unavailable or the
elevation drops below `obs.elevMin - 5`. -/
theorem c2_serving_stable (config : Terminal.Config) (obs : Observer)
    (weather : Option ℝ) (n : ℕ) (view : ℕ → Option SatState)
    (s : Terminal.HandoverState) (serving : Terminal.Cand) (st : SatState)
    (hs : s.currentServingSat = some serving)
    (hview : view serving.index = some st)
    (hel : ¬ st.el < obs.elevMin - 5) :
    Terminal.simulateHandover config obs weather n view s = s := by
  unfold Terminal.simulateHandover
  simp only [hs, hview]
  rw [if_neg hel]

/-- Witness for C2: the serving satellite of `handoverState1` is at
elevation 50, far above the hysteresis threshold, so the state is kept. -/
theorem c2_serving_stable_witness :
    Terminal.simulateHandover Terminal.defaultConfig defaultObs none 3 view1
      handoverState1 = handoverState1 :=
  c2_serving_stable Terminal.defaultConfig defaultObs none 3 view1
    handoverState1 cand0 st50 rfl rfl (by norm_num [st50, defaultObs])

/-! ## C9: candidate-list invariants -/

/-- C9: every call of `simulateHandover` preserves the handover invariant:
the candidate list keeps at most 3 entries with pairwise distinct indices
and the serving satellite is never among the candidates.  The acquisition
step establishes it from the sorted visible list and the handover step
removes the promoted candidate from the list. -/
theorem c9_handover_invariant (config : Terminal.Config) (obs : Observer)
    (weather : Option ℝ) (n : ℕ) (view : ℕ → Option SatState)
    (s : Terminal.HandoverState) (h : Terminal.HandoverInv s) :
    Terminal.HandoverInv (Terminal.simulateHandover config obs weather n view s) := by
  unfold Terminal.simulateHandover
  cases hs : s.currentServingSat with
  | some serving =>
    simp only [hs]
    cases hv : view serving.index with
    | none => exact Terminal.promote_inv h
    | some st =>
      show Terminal.HandoverInv
        (if st.el < obs.elevMin - 5 then Terminal.promote s else s)
      by_cases hlt : st.el < obs.elevMin - 5
      · rw [if_pos hlt]; exact Terminal.promote_inv h
      · rw [if_neg hlt]; exact h
  | none =>
    simp only [hs]
    cases hsort : (Terminal.visibleCands config obs weather n view).mergeSort
        Terminal.handoverLe with
    | nil => exact h
    | cons best rest =>
      have hpw : (best :: rest).Pairwise (fun a b => a.index ≠ b.index) := by
        have h1 := Terminal.visibleCands_pairwise config obs weather n view
        have h2 := List.mergeSort_perm (Terminal.visibleCands config obs weather n view)
          Terminal.handoverLe
        rw [hsort] at h2
        exact (h2.pairwise_iff fun hxy => Ne.symm hxy).mpr h1
      obtain ⟨hhead, htail⟩ := List.pairwise_cons.mp hpw
      refine ⟨?_, ?_, ?_⟩
      · simp [List.length_take]
      · intro serving2 hserving2 c hcmem
        injection hserving2 with hb
        rw [← hb]
        exact fun heq => (hhead c ((List.take_sublist 3 rest).subset hcmem)) heq.symm
      · exact List.Pairwise.sublist (List.take_sublist 3 rest) htail

/-- Witness for C9: the invariant holds after the acquisition call from
the initial state. -/
theorem c9_handover_invariant_witness :
    Terminal.HandoverInv
      (Terminal.simulateHandover Terminal.defaultConfig defaultObs none 3 view1
        Terminal.initialHandoverState) :=
  c9_handover_invariant Terminal.defaultConfig defaultObs none 3 view1
    Terminal.initialHandoverState
    ⟨by simp [Terminal.initialHandoverState],
     by simp [Terminal.initialHandoverState],
     by simp [Terminal.initialHandoverState]⟩

/-! ## C8: `getSatState` is total and validates its outputs -/

/-- `radiansToDegrees` on a JavaScript number preserves finiteness. -/
theorem radiansToDegreesJs_isFinite (x : JsNum) :
    (radiansToDegreesJs x).isFinite = x.isFinite := rfl

/-- C8: `getSatState` is a total function of the (modelled) library calls:
it returns `none` exactly when propagation yields no position or one of
the resulting latitude, longitude, altitude is not finite, and otherwise
it returns the geodetic position together with the look angles computed
from the configured observer. -/
theorem c8_getSatState_total {Rec Time Eci Ecf : Type}
    (lib : SatLib Rec Time Eci Ecf) (obs : Observer) (rec : Rec) (t : Time) :
    (Basic.getSatState lib obs rec t = none ↔
      lib.propagate rec t = none ∨
        ∃ eci, lib.propagate rec t = some eci ∧
          ¬ (((lib.eciToGeodetic eci (lib.gstime t)).latitude.isFinite &&
              (lib.eciToGeodetic eci (lib.gstime t)).longitude.isFinite &&
              (lib.eciToGeodetic eci (lib.gstime t)).height.isFinite) = true)) ∧
    ∀ eci, lib.propagate rec t = some eci →
      ((lib.eciToGeodetic eci (lib.gstime t)).latitude.isFinite &&
       (lib.eciToGeodetic eci (lib.gstime t)).longitude.isFinite &&
       (lib.eciToGeodetic eci (lib.gstime t)).height.isFinite) = true →
      Basic.getSatState lib obs rec t =
        some { lat := (radiansToDegreesJs (lib.eciToGeodetic eci (lib.gstime t)).latitude).val
               lon := (radiansToDegreesJs (lib.eciToGeodetic eci (lib.gstime t)).longitude).val
               alt := (lib.eciToGeodetic eci (lib.gstime t)).height.val
               az := radiansToDegrees (lib.ecfToLookAngles
                 { latitude := degreesToRadians obs.lat
                   longitude := degreesToRadians obs.lon
                   height := 0 } (lib.eciToEcf eci (lib.gstime t))).azimuth
               el := radiansToDegrees (lib.ecfToLookAngles
                 { latitude := degreesToRadians obs.lat
                   longitude := degreesToRadians obs.lon
                   height := 0 } (lib.eciToEcf eci (lib.gstime t))).elevation } := by
  unfold Basic.getSatState
  cases hp : lib.propagate rec t with
  | none => simp [hp]
  | some eci =>
    simp only [hp]
    rw [radiansToDegreesJs_isFinite (lib.eciToGeodetic eci (lib.gstime t)).latitude,
      radiansToDegreesJs_isFinite (lib.eciToGeodetic eci (lib.gstime t)).longitude]
    constructor
    · by_cases hfin : ((lib.eciToGeodetic eci (lib.gstime t)).latitude.isFinite &&
          (lib.eciToGeodetic eci (lib.gstime t)).longitude.isFinite &&
          (lib.eciToGeodetic eci (lib.gstime t)).height.isFinite) = true
      · rw [if_pos hfin]
        constructor
        · intro h; cases h
        · rintro (h | ⟨eci2, heci2, hne⟩)
          · cases h
          · injection heci2 with he
            subst he
            exact absurd hfin hne
      · rw [if_neg hfin]
        constructor
        · intro _; exact Or.inr ⟨eci, rfl, hfin⟩
        · intro _; rfl
    · intro eci2 heci hfin2
      injection heci with he
      subst he
      rw [if_pos hfin2]

/-- Witness for C8 on a fully concrete library instantiation. -/
theorem c8_getSatState_total_witness :
    Basic.getSatState unitLib defaultObs () () =
      some { lat := (radiansToDegreesJs (unitLib.eciToGeodetic () (unitLib.gstime ())).latitude).val
             lon := (radiansToDegreesJs (unitLib.eciToGeodetic () (unitLib.gstime ())).longitude).val
             alt := (unitLib.eciToGeodetic () (unitLib.gstime ())).height.val
             az := radiansToDegrees (unitLib.ecfToLookAngles
               { latitude := degreesToRadians defaultObs.lat
                 longitude := degreesToRadians defaultObs.lon
                 height := 0 } (unitLib.eciToEcf () (unitLib.gstime ()))).azimuth
             el := radiansToDegrees (unitLib.ecfToLookAngles
               { latitude := degreesToRadians defaultObs.lat
                 longitude := degreesToRadians defaultObs.lon
                 height := 0 } (unitLib.eciToEcf () (unitLib.gstime ()))).elevation } :=
  (c8_getSatState_total unitLib defaultObs () ()).2 () rfl rfl

end Starlink
